import Mathlib

/-!
Shallow embedding of the two Open-WebUI pipeline adapters
(src/Azure_DeepSeekR1.py and src/Azure_Openai_Chatgpt_o1mini.py).

Python dictionaries are modelled as association lists with unique keys
(`Body`); Python values occurring in request bodies are modelled by the
inductive `Val`; the remote HTTP / Azure-inference client is modelled by a
transport oracle passed to the pipe functions, an `Except`/`raised` outcome
standing for an exception raised by the library call.  In-place mutation of
the caller-supplied `body` dict is modelled by returning the final state of
the dict (`finalBody`) alongside the result.
-/

set_option linter.unusedVariables false

namespace Pipelines

/-- Values that can appear in a Python request body: strings, numbers,
booleans, None, lists and dicts.  (Numeric values are modelled as integers;
no claim depends on float arithmetic.) -/
inductive Val where
  | str : String → Val
  | num : Int → Val
  | bool : Bool → Val
  | null : Val
  | arr : List Val → Val
  | obj : List (String × Val) → Val

/-- A Python dict, as an association list with unique keys. -/
abbrev Body := List (String × Val)

/-- Dict lookup: `body.get(k)` / `body[k]` when present. -/
def getKey : Body → String → Option Val
  | [], _ => none
  | (k', v) :: rest, k => if k' = k then some v else getKey rest k

/-- Dict removal: `body.pop(k, None)` (drops every binding of `k`;
on a unique-key dict this is exactly one binding). -/
def popKey : Body → String → Body
  | [], _ => []
  | (k', v) :: rest, k => if k' = k then popKey rest k else (k', v) :: popKey rest k

/-- Dict assignment `body[k] = v`: replaces the binding in place if the key
is present, else appends it. -/
def setKey : Body → String → Val → Body
  | [], k, v => [(k, v)]
  | (k', v') :: rest, k, v =>
      if k' = k then (k, v) :: rest else (k', v') :: setKey rest k v

/-- Python truthiness of a value (`if x:`): empty string, zero, False, None,
empty list and empty dict are falsy, everything else truthy. -/
def pyTruthy : Val → Bool
  | .str s => s ≠ ""
  | .num n => n ≠ 0
  | .bool b => b
  | .null => false
  | .arr [] => false
  | .arr (_ :: _) => true
  | .obj [] => false
  | .obj (_ :: _) => true

/-- Truthiness of `body.get(k, False)`: an absent key is falsy. -/
def truthyGet (body : Body) (k : String) : Bool :=
  match getKey body k with
  | none => false
  | some v => pyTruthy v

/-- Python str() rendering of a value, as used by `str(body["user"])`.
(The exact stdlib formatting only matters for the fallback branch of the
user remap, which no claim exercises; quotes around strings use the
single-quote character, written via its code point.) -/
def quoteS (s : String) : String :=
  String.singleton (Char.ofNat 39) ++ s ++ String.singleton (Char.ofNat 39)

mutual
def reprVal : Val → String
  | .null => "None"
  | .bool b => if b then "True" else "False"
  | .num n => toString n
  | .str s => quoteS s
  | .arr xs => "[" ++ reprList xs ++ "]"
  | .obj kvs => "\x7b" ++ reprKVs kvs ++ "\x7d"

def reprList : List Val → String
  | [] => ""
  | [x] => reprVal x
  | x :: y :: xs => reprVal x ++ ", " ++ reprList (y :: xs)

def reprKVs : List (String × Val) → String
  | [] => ""
  | [(k, v)] => quoteS k ++ ": " ++ reprVal v
  | (k, v) :: y :: xs => quoteS k ++ ": " ++ reprVal v ++ ", " ++ reprKVs (y :: xs)
end

/-- JSON string escaping as performed by `json.dumps` on the error message
(quote and backslash; no claim exercises control characters). -/
def jsonEscape (s : String) : String :=
  s.foldl (fun acc c =>
    if c = Char.ofNat 34 then acc ++ "\\" ++ String.singleton (Char.ofNat 34)
    else if c = Char.ofNat 92 then acc ++ "\\\\"
    else acc ++ String.singleton c) ""

/-- Serialized error envelope `json.dumps(\x7b"error": str(e)\x7d)` returned by
the DeepSeekR1 pipeline on any caught exception. -/
def errorJson (e : String) : String :=
  "\x7b\"error\": \"" ++ jsonEscape e ++ "\"\x7d"

/-! ## Messages and the DeepSeekR1 pipeline (src/Azure_DeepSeekR1.py) -/

/-- A raw chat message dictionary with its `role` and `content` fields
(`\x7brole, content\x7d`, both strings). -/
structure Msg where
  role : String
  content : String
deriving DecidableEq, Repr

/-- Loop body of `pop_system_message`: `sys` is the `system_message`
variable, `acc` the `updated_messages` list built so far. -/
def popSysAux : String → List Msg → List Msg → String × List Msg
  | sys, acc, [] => (sys, acc)
  | sys, acc, m :: rest =>
      if m.role = "system" then popSysAux m.content acc rest
      else popSysAux sys (acc ++ [m]) rest

/-- Embedding of `pop_system_message` (src/Azure_DeepSeekR1.py lines 21-40):
walks the messages once; every system-role entry overwrites
`system_message`, every other entry is appended to `updated_messages`. -/
def pop_system_message (messages : List Msg) : String × List Msg :=
  popSysAux "" [] messages

/-- The provider-typed messages built in `Pipeline.pipe`
(SystemMessage / UserMessage / AssistantMessage). -/
inductive ChatMsg where
  | system : String → ChatMsg
  | user : String → ChatMsg
  | assistant : String → ChatMsg
deriving DecidableEq, Repr

/-- Role dispatch of the list comprehension in `pipe` (lines 114-119):
user → UserMessage, system → SystemMessage, anything else → AssistantMessage. -/
def toTyped (m : Msg) : ChatMsg :=
  if m.role = "user" then .user m.content
  else if m.role = "system" then .system m.content
  else .assistant m.content

/-- Message preparation in `pipe` (lines 109-119): pop the system message,
prepend `[SystemMessage(system_message)]` only when `system_message` is
truthy (non-empty), then map the remaining raw messages through the role
dispatch. -/
def prepareMessages (messages : List Msg) : List ChatMsg :=
  let res := pop_system_message messages
  (if res.1 ≠ "" then [ChatMsg.system res.1] else []) ++ res.2.map toTyped

/-- The allow-list of generation parameters in `pipe` (lines 122-125). -/
def ds_allowed : List String :=
  ["temperature", "max_tokens", "presence_penalty", "frequency_penalty", "top_p"]

/-- The body after `for key in ["user", "chat_id", "title"]: body.pop(key, None)`
(lines 105-107); this mutates the caller-supplied dict. -/
def ds_body_after_pops (body : Body) : Body :=
  popKey (popKey (popKey body "user") "chat_id") "title"

/-- The `filtered_body` dict comprehension of `pipe` (lines 126-129), applied
to the already-popped body. -/
def ds_filtered_body (body : Body) : Body :=
  (ds_body_after_pops body).filter (fun kv => ds_allowed.contains kv.1)

/-- One incremental `delta` of a streaming chunk; its `content` may be absent
(None). -/
structure Delta where
  content : Option String
deriving DecidableEq, Repr

/-- One choice of a streaming chunk. -/
structure StreamChoice where
  delta : Delta
deriving DecidableEq, Repr

/-- One raw streaming chunk from the provider; `choices` may be empty. -/
structure Chunk where
  choices : List StreamChoice
deriving DecidableEq, Repr

/-- The message of a blocking completion choice. -/
structure CompMessage where
  content : String
deriving DecidableEq, Repr

/-- One choice of a blocking completion response. -/
structure CompChoice where
  message : CompMessage
deriving DecidableEq, Repr

/-- A blocking completion response; `choices` may be empty. -/
structure Completion where
  choices : List CompChoice
deriving DecidableEq, Repr

/-- Loop body of `stream_response` (lines 150-154): a chunk with no choices
is skipped; a first-choice delta whose content is None or empty is skipped;
otherwise the fragment is appended to the accumulator. -/
def streamStep (acc : String) (c : Chunk) : String :=
  match c.choices with
  | [] => acc
  | ch :: _ =>
      match ch.delta.content with
      | none => acc
      | some d => if d = "" then acc else acc ++ d

/-- Embedding of `Pipeline.stream_response` (lines 143-158): the argument is
the outcome of `self.client.complete(..., stream=True, ...)` — a finite chunk
sequence on success, an exception on failure.  The chunks are folded into
`complete_response` and that single string is returned; an exception is
caught and returned as the serialized error envelope. -/
def stream_response (call : Except String (List Chunk)) : String :=
  match call with
  | .ok chunks => chunks.foldl streamStep ""
  | .error e => errorJson e

/-- Embedding of `Pipeline.get_completion` (lines 160-174): on success,
the first choice content, or the empty string when `response.choices` is
empty; an exception is caught and returned as the serialized error envelope. -/
def get_completion (call : Except String Completion) : String :=
  match call with
  | .ok resp =>
      match resp.choices with
      | [] => ""
      | c :: _ => c.message.content
  | .error e => errorJson e

/-- The valve configuration of the DeepSeekR1 pipeline. -/
structure DSConfig where
  credential : String
  endpoint : String
  model_id : String
deriving DecidableEq, Repr

/-- The default valve values of `Pipeline.__init__` (lines 55-65) when no
environment variables are set: the placeholder sentinels. -/
def placeholderDSConfig : DSConfig :=
  { credential := "your-azure-inference-key-here",
    endpoint := "your-azure-inference-endpoint-here",
    model_id := "DeepSeekR1" }

/-- Oracle for `self.client.complete`: given the configuration (endpoint,
credential and model id), the typed messages and the filtered parameters, it
either returns the provider data or raises.  The streaming and blocking
entry points are separate because the source calls them with and without
`stream=True`. -/
structure DSTransport where
  streamCall : DSConfig → List ChatMsg → Body → Except String (List Chunk)
  blockCall : DSConfig → List ChatMsg → Body → Except String Completion

/-- A transport whose behaviour does not depend on its arguments. -/
def dsTransportConst (s : Except String (List Chunk))
    (b : Except String Completion) : DSTransport :=
  ⟨fun _ _ _ => s, fun _ _ _ => b⟩

/-- Result value of a pipe call: a plain string, a lazy sequence of lines /
fragments, or a parsed JSON value (what `response.json()` yields). -/
inductive PipeValue where
  | text : String → PipeValue
  | lines : List String → PipeValue
  | jsonVal : Val → PipeValue

/-- Whether a pipe result is the single-string variant. -/
def isText : PipeValue → Bool
  | .text _ => true
  | _ => false

/-- Observable outcome of a DeepSeekR1 `pipe` call: the returned value, the
final state of the caller-supplied `body` dict (the source mutates it in
place), and whether the remote client was invoked. -/
structure DSOut where
  result : PipeValue
  finalBody : Body
  networkAttempted : Bool

/-- Embedding of `Pipeline.pipe` of src/Azure_DeepSeekR1.py (lines 96-141).
The source pops `user`, `chat_id`, `title` from the body, pops the system
message, prepares typed messages, filters the body by the allow-list, and
dispatches on the truthiness of `body.get("stream", False)`.  Both branches
invoke the remote client (there is no placeholder-configuration check), and
both `stream_response` and `get_completion` return strings, so every result
is the `text` variant.  The outer `try/except` of `pipe` converts any
escaping exception to the serialized error envelope; in this model the only
fault source is the transport oracle, already handled inside the two
helpers, so `pipe` is total. -/
def deepseekPipe (cfg : DSConfig) (tr : DSTransport) (user_message model_id : String)
    (messages : List Msg) (body : Body) : DSOut :=
  let body1 := ds_body_after_pops body
  let dsMessages := prepareMessages messages
  let filtered_body := ds_filtered_body body
  if truthyGet body1 "stream" then
    { result := .text (stream_response (tr.streamCall cfg dsMessages filtered_body)),
      finalBody := body1, networkAttempted := true }
  else
    { result := .text (get_completion (tr.blockCall cfg dsMessages filtered_body)),
      finalBody := body1, networkAttempted := true }

/-! ## The o1-mini pipeline (src/Azure_Openai_Chatgpt_o1mini.py) -/

/-- The valve configuration of the o1-mini pipeline. -/
structure O1Config where
  api_key : String
  endpoint : String
  deployment : String
  api_version : String
deriving DecidableEq, Repr

/-- The request URL built in `pipe` (lines 60-63). -/
def o1_url (cfg : O1Config) : String :=
  cfg.endpoint ++ "/openai/deployments/" ++ cfg.deployment ++
    "/chat/completions?api-version=" ++ cfg.api_version

/-- The allow-list of parameters in `pipe` (lines 65-70). -/
def o1_allowed : List String :=
  ["messages", "temperature", "role", "content", "contentPart", "contentPartImage",
   "enhancements", "data_sources", "n", "stream", "stop", "max_tokens",
   "presence_penalty", "frequency_penalty", "logit_bias", "user", "function_call",
   "functions", "tools", "tool_choice", "top_p", "log_probs", "top_logprobs",
   "response_format", "seed"]

/-- The `filtered_body` dict comprehension of `pipe` (line 77). -/
def o1Filter (body : Body) : Body :=
  body.filter (fun kv => o1_allowed.contains kv.1)

/-- Python exceptions that can escape the o1-mini `pipe` (only
`requests.RequestException` is caught by its handler). -/
inductive PyExn where
  | unboundLocalError : PyExn
  | attributeError : PyExn
deriving DecidableEq, Repr

/-- Embedding of the user remap of `pipe` (lines 72-74):
`if "user" in body and not isinstance(body["user"], str):
body["user"] = body["user"].get("id", str(body["user"]))`.
A string user (or no user) is left alone; a dict user is replaced by its
`id` value when present, else by the str() rendering of the whole dict; any
other non-string value has no `.get` attribute, so the statement raises
AttributeError — which is outside the `try` block and escapes `pipe`. -/
def remapUser (body : Body) : Except PyExn Body :=
  match getKey body "user" with
  | none => .ok body
  | some (.str _) => .ok body
  | some (.obj kvs) =>
      let newv := match getKey kvs "id" with
        | some idv => idv
        | none => Val.str (reprVal (.obj kvs))
      .ok (setKey body "user" newv)
  | some _ => .error .attributeError

/-- A provider HTTP response as seen through the requests library: status
code, the parsed JSON body when the payload is valid JSON, the raw text, the
line sequence of `iter_lines()`, and the library-generated message text of
the exception that `raise_for_status()` / `response.json()` would raise. -/
structure HttpResponse where
  status : Nat
  jsonBody : Option Val
  text : String
  lineSeq : List String
  exnText : String

/-- Outcome of `requests.post`: a response, or a raised
`requests.RequestException` (connection failure, timeout, ...). -/
inductive HttpOutcome where
  | raised : String → HttpOutcome
  | resp : HttpResponse → HttpOutcome

/-- Oracle for `requests.post(url, json=filtered_body, stream=...)`. -/
abbrev O1Transport := String → Body → Bool → HttpOutcome

/-- The error string built by the `except requests.RequestException` handler
(lines 100-108) when the local variable `response` is bound: the details come
from `response.json()` when the body parses, else from `response.text`. -/
def o1HandlerString (e : String) (r : HttpResponse) : String :=
  "Error: Request failed: " ++ e ++
    (match r.jsonBody with
     | some j => " | Details: " ++ reprVal j
     | none => " | Response Text: " ++ r.text)

/-- Observable outcome of an o1-mini `pipe` call: the returned value or the
escaping exception, the final state of the caller-supplied `body` dict, and
whether `requests.post` was reached. -/
structure O1Out where
  result : Except PyExn PipeValue
  finalBody : Body
  networkAttempted : Bool

/-- Embedding of `Pipeline.pipe` of src/Azure_Openai_Chatgpt_o1mini.py
(lines 35-108).  The user remap runs before the `try` block, so its
AttributeError escapes.  Inside the `try`: `requests.post`, then
`raise_for_status()` (HTTPError on status ≥ 400, a RequestException), then
either `iter_lines()` when the filtered stream flag is truthy or
`response.json()` (whose decode failure is a RequestException in the
requests library).  The handler catches RequestException and evaluates
`if response is not None` — but when `requests.post` itself raised, the
local `response` was never assigned, so the handler raises
UnboundLocalError, which escapes `pipe`.  When `response` is bound the
handler returns the `"Error: ..."` string. -/
def o1pipe (cfg : O1Config) (transport : O1Transport) (user_message model_id : String)
    (messages : List Msg) (body : Body) : O1Out :=
  match remapUser body with
  | .error ex => { result := .error ex, finalBody := body, networkAttempted := false }
  | .ok body1 =>
    let filtered_body := o1Filter body1
    match transport (o1_url cfg) filtered_body (truthyGet filtered_body "stream") with
    | .raised _ =>
        { result := .error .unboundLocalError, finalBody := body1,
          networkAttempted := true }
    | .resp r =>
        if 400 ≤ r.status then
          { result := .ok (.text (o1HandlerString r.exnText r)), finalBody := body1,
            networkAttempted := true }
        else if truthyGet filtered_body "stream" then
          { result := .ok (.lines r.lineSeq), finalBody := body1,
            networkAttempted := true }
        else
          match r.jsonBody with
          | some j =>
              { result := .ok (.jsonVal j), finalBody := body1,
                networkAttempted := true }
          | none =>
              { result := .ok (.text (o1HandlerString r.exnText r)), finalBody := body1,
                networkAttempted := true }

/-- The default valve values of the o1-mini `Pipeline.__init__` (lines
18-25) when no environment variables are set: the placeholder key sentinel
and the sample endpoint left in the source. -/
def placeholderO1Config : O1Config :=
  { api_key := "your-azure-openai-api-key-here",
    endpoint := "https://xxx.openai.azure.com",
    deployment := "o1-mini",
    api_version := "2024-08-01-preview" }

/-! ## Spec-side definitions

These follow the words of the specification; the claim theorems compare
them with the source embeddings above. -/

/-- Spec §3 / §4.1: the content of the last system-role entry of the input
(the last one observed wins), empty when there is none. -/
def lastSystemContent (ms : List Msg) : String :=
  ms.foldl (fun acc m => if m.role = "system" then m.content else acc) ""

/-- Spec §4.1: the non-system entries, in their original order. -/
def nonSystem (ms : List Msg) : List Msg :=
  ms.filter (fun m => m.role ≠ "system")

/-- Spec §4.4: the incremental text fragment of a chunk — present exactly
when the chunk has at least one choice and the first choice carries a
non-empty delta. -/
def fragOf (c : Chunk) : Option String :=
  match c.choices with
  | [] => none
  | ch :: _ =>
      match ch.delta.content with
      | none => none
      | some d => if d = "" then none else some d

/-- Spec §4.4 / P4: the non-empty delta fragments of a chunk sequence, in
arrival order. -/
def extractedFrags (chunks : List Chunk) : List String :=
  chunks.filterMap fragOf

/-- Concatenation of a fragment list, in order. -/
def concatAll (l : List String) : String :=
  l.foldr (fun a b => a ++ b) ""

/-- Spec §4.3 blocking mode: the first completion choice content, or the
empty string on zero choices. -/
def firstChoiceContent (comp : Completion) : String :=
  match comp.choices with
  | [] => ""
  | c :: _ => c.message.content

/-! ## Helper lemmas -/

theorem popSysAux_spec (ms : List Msg) : ∀ (sys : String) (acc : List Msg),
    popSysAux sys acc ms =
      (ms.foldl (fun a m => if m.role = "system" then m.content else a) sys,
       acc ++ nonSystem ms) := by
  induction ms with
  | nil => intro sys acc; simp [popSysAux, nonSystem]
  | cons m rest ih =>
    intro sys acc
    by_cases h : m.role = "system"
    · simp [popSysAux, h, ih, nonSystem, List.filter_cons]
    · simp [popSysAux, h, ih, nonSystem, List.filter_cons]

theorem pop_system_message_spec (ms : List Msg) :
    pop_system_message ms = (lastSystemContent ms, nonSystem ms) := by
  simpa [pop_system_message, lastSystemContent] using popSysAux_spec ms "" []

theorem lastSys_foldl_of_no_system {l : List Msg}
    (h : ∀ m ∈ l, m.role ≠ "system") (s : String) :
    l.foldl (fun a m => if m.role = "system" then m.content else a) s = s := by
  induction l generalizing s with
  | nil => rfl
  | cons m rest ih =>
    simp only [List.foldl_cons]
    rw [if_neg (h m (List.mem_cons_self ..))]
    exact ih (fun x hx => h x (List.mem_cons_of_mem _ hx)) s

theorem nonSystem_eq_self {l : List Msg} (h : ∀ m ∈ l, m.role ≠ "system") :
    nonSystem l = l := by
  rw [nonSystem, List.filter_eq_self]
  intro m hm
  simpa using h m hm

theorem getKey_filter_keys (p : String → Bool) (b : Body) (k : String) :
    getKey (b.filter (fun kv => p kv.1)) k = if p k = true then getKey b k else none := by
  induction b with
  | nil => simp [getKey]
  | cons kv rest ih =>
    obtain ⟨k', v⟩ := kv
    by_cases hk : k' = k
    · subst hk
      cases hp : p k' with
      | false => simp [List.filter_cons, hp, getKey, ih]
      | true => simp [List.filter_cons, hp, getKey]
    · cases hp : p k' with
      | false => simp [List.filter_cons, hp, getKey, hk, ih]
      | true => simp [List.filter_cons, hp, getKey, hk, ih]

theorem getKey_popKey_self (b : Body) (k : String) : getKey (popKey b k) k = none := by
  induction b with
  | nil => rfl
  | cons kv rest ih =>
    obtain ⟨k', v⟩ := kv
    by_cases hk : k' = k
    · simp [popKey, hk, ih]
    · simp [popKey, hk, getKey, ih]

theorem getKey_popKey_ne (b : Body) (k k' : String) (h : k' ≠ k) :
    getKey (popKey b k) k' = getKey b k' := by
  induction b with
  | nil => rfl
  | cons kv rest ih =>
    obtain ⟨k₁, v⟩ := kv
    by_cases h1 : k₁ = k
    · subst h1
      have : k₁ ≠ k' := fun hh => h (hh ▸ rfl)
      simp [popKey, getKey, this, ih]
    · by_cases h2 : k₁ = k' <;> simp [popKey, h1, getKey, h2, h, ih]

theorem getKey_setKey_self (b : Body) (k : String) (v : Val) :
    getKey (setKey b k v) k = some v := by
  induction b with
  | nil => simp [setKey, getKey]
  | cons kv rest ih =>
    obtain ⟨k', v'⟩ := kv
    by_cases hk : k' = k
    · simp [setKey, hk, getKey]
    · simp [setKey, hk, getKey, ih]

theorem streamStep_eq (acc : String) (c : Chunk) :
    streamStep acc c = acc ++ (fragOf c).getD "" := by
  obtain ⟨choices⟩ := c
  cases choices with
  | nil => simp [streamStep, fragOf, String.append_empty]
  | cons ch rest =>
    obtain ⟨⟨content⟩⟩ := ch
    cases content with
    | none => simp [streamStep, fragOf, String.append_empty]
    | some d =>
      by_cases he : d = "" <;> simp [streamStep, fragOf, he, String.append_empty]

theorem foldl_streamStep (chunks : List Chunk) : ∀ acc : String,
    chunks.foldl streamStep acc = acc ++ concatAll (extractedFrags chunks) := by
  induction chunks with
  | nil => intro acc; simp [extractedFrags, concatAll, String.append_empty]
  | cons c rest ih =>
    intro acc
    simp only [List.foldl_cons, streamStep_eq]
    cases hf : fragOf c with
    | none =>
      simp [extractedFrags, List.filterMap_cons, hf, ih, String.append_empty]
    | some d =>
      simp [extractedFrags, List.filterMap_cons, hf, ih, concatAll, String.append_assoc]

/-! ## Claim theorems -/

/-- C1: the public entry point is claimed never to propagate an exception,
but the o1-mini pipe does: when `requests.post` itself raises (here a
connection failure), the `except` handler evaluates the local variable
`response`, which was never assigned, and the resulting UnboundLocalError
escapes `pipe` to the caller instead of a serialized error value. -/
theorem o1pipe_raises_on_connection_failure :
    (o1pipe ⟨"your-azure-openai-api-key-here", "https://xxx.openai.azure.com",
        "o1-mini", "2024-08-01-preview"⟩
      (fun _ _ _ => .raised "connection refused") "hi" "o1-mini"
      [⟨"user", "hi"⟩] []).result = .error PyExn.unboundLocalError := rfl

/-- C4 counterexample: for an input with two system entries A then B, the
earlier system entry A is not reclassified as an ordinary message kept in
the output conversation — it is absent from the output. -/
theorem earlier_system_kept_counterexample :
    pop_system_message [⟨"system", "A"⟩, ⟨"system", "B"⟩, ⟨"user", "u"⟩]
      = ("B", [⟨"user", "u"⟩])
  ∧ (⟨"system", "A"⟩ : Msg) ∉ (pop_system_message
      [⟨"system", "A"⟩, ⟨"system", "B"⟩, ⟨"user", "u"⟩]).2 :=
  ⟨rfl, by decide⟩

/-- C4 amended: normalization makes the last system entry the
systemMessage, and the earlier system-role entries are dropped from the
output conversation entirely (not kept): the output is exactly the
non-system messages in their original order. -/
theorem last_system_wins_amended (ms : List Msg) :
    pop_system_message ms = (lastSystemContent ms, nonSystem ms) :=
  pop_system_message_spec ms

/-- C5: for an input containing system-role messages A then B, with B the
last system entry, the resulting systemMessage equals the content of B and
A appears nowhere in the output conversation. -/
theorem last_wins_drops_earlier_system (l1 l2 l3 : List Msg) (A B : Msg)
    (hA : A.role = "system") (hB : B.role = "system")
    (h3 : ∀ m ∈ l3, m.role ≠ "system") :
    (pop_system_message (l1 ++ A :: l2 ++ B :: l3)).1 = B.content
  ∧ A ∉ (pop_system_message (l1 ++ A :: l2 ++ B :: l3)).2 := by
  rw [pop_system_message_spec]
  constructor
  · show lastSystemContent (l1 ++ A :: l2 ++ B :: l3) = B.content
    unfold lastSystemContent
    rw [show l1 ++ A :: l2 ++ B :: l3 = (l1 ++ A :: l2) ++ B :: l3 by simp]
    rw [List.foldl_append, List.foldl_cons, if_pos hB]
    exact lastSys_foldl_of_no_system h3 _
  · intro hmem
    have hA' := (List.mem_filter.mp hmem).2
    simp [hA] at hA'

/-- C5 witness: concrete instance with system A, a user message, then
system B. -/
theorem last_wins_drops_earlier_system_witness :
    (pop_system_message [⟨"system", "A"⟩, ⟨"user", "u"⟩, ⟨"system", "B"⟩]).1 = "B"
  ∧ (⟨"system", "A"⟩ : Msg) ∉ (pop_system_message
      [⟨"system", "A"⟩, ⟨"user", "u"⟩, ⟨"system", "B"⟩]).2 := by
  have h := last_wins_drops_earlier_system [] [⟨"user", "u"⟩] []
      ⟨"system", "A"⟩ ⟨"system", "B"⟩ rfl rfl (by simp)
  simpa using h

/-- C6: collect-all aggregation of a finite chunk sequence returns exactly
the concatenation, in arrival order, of the non-empty delta fragments of
the chunks that have at least one choice; chunks with no choices or with an
empty or absent delta are skipped and aggregation runs to the end without
error. -/
theorem collect_all_aggregation (chunks : List Chunk) :
    stream_response (.ok chunks) = concatAll (extractedFrags chunks) := by
  show chunks.foldl streamStep "" = _
  rw [foldl_streamStep chunks ""]
  exact String.empty_append _

/-- C2 counterexample: with a truthy `body.stream`, the DeepSeekR1 pipe
returns a single string — the internally aggregated deltas — not a lazy
sequence of fragments; and in blocking mode the o1-mini pipe returns the
parsed JSON value of the response, not a string. -/
theorem pipe_stream_claim_counterexample :
    (deepseekPipe placeholderDSConfig
        (dsTransportConst (.ok [⟨[⟨⟨some "a"⟩⟩]⟩, ⟨[⟨⟨some "b"⟩⟩]⟩]) (.ok ⟨[]⟩))
        "u" "m" [] [("stream", Val.bool true)]).result = .text "ab"
  ∧ isText (deepseekPipe placeholderDSConfig
        (dsTransportConst (.ok [⟨[⟨⟨some "a"⟩⟩]⟩, ⟨[⟨⟨some "b"⟩⟩]⟩]) (.ok ⟨[]⟩))
        "u" "m" [] [("stream", Val.bool true)]).result = true
  ∧ (o1pipe ⟨"k", "e", "d", "v"⟩
        (fun _ _ _ => .resp ⟨200, some (.obj [("id", .str "cmpl")]), "", [], "E"⟩)
        "u" "m" [] []).result = .ok (.jsonVal (.obj [("id", .str "cmpl")])) :=
  ⟨rfl, rfl, rfl⟩

/-- C2 amended: the DeepSeekR1 pipe returns the single-string variant for
every input, transport and stream flag (streamed deltas are aggregated
internally into one string); the o1-mini pipe, on a successful transport
response, returns the lazy line sequence when the filtered body has a
truthy stream entry and the parsed JSON value of the response otherwise. -/
theorem pipe_mode_amended (cfg : DSConfig) (tr : DSTransport) (u m : String)
    (msgs : List Msg) (body : Body)
    (cfg' : O1Config) (r : HttpResponse) (u' m' : String) (msgs' : List Msg)
    (body' b1 : Body) (hu : remapUser body' = .ok b1) (hst : r.status < 400) :
    isText (deepseekPipe cfg tr u m msgs body).result = true
  ∧ (truthyGet (o1Filter b1) "stream" = true →
      (o1pipe cfg' (fun _ _ _ => .resp r) u' m' msgs' body').result
        = .ok (.lines r.lineSeq))
  ∧ (truthyGet (o1Filter b1) "stream" = false → ∀ j, r.jsonBody = some j →
      (o1pipe cfg' (fun _ _ _ => .resp r) u' m' msgs' body').result
        = .ok (.jsonVal j)) := by
  have h4 : ¬ (400 ≤ r.status) := by omega
  refine ⟨?_, ?_, ?_⟩
  · cases h : truthyGet (ds_body_after_pops body) "stream" <;>
      simp [deepseekPipe, h, isText]
  · intro hs
    simp [o1pipe, hu, h4, hs]
  · intro hs j hj
    simp [o1pipe, hu, h4, hs, hj]

/-- C2 amended witness: a failing blocking DeepSeekR1 call still yields the
string variant, and a streaming o1-mini call yields the line sequence. -/
theorem pipe_mode_amended_witness :
    isText (deepseekPipe placeholderDSConfig
        (dsTransportConst (.error "x") (.error "x")) "u" "m" [] []).result = true
  ∧ (o1pipe ⟨"k", "e", "d", "v"⟩
        (fun _ _ _ => .resp ⟨200, none, "", ["l1", "l2"], "E"⟩)
        "u" "m" [] [("stream", Val.bool true)]).result = .ok (.lines ["l1", "l2"]) := by
  have h := pipe_mode_amended placeholderDSConfig (dsTransportConst (.error "x") (.error "x"))
      "u" "m" [] [] ⟨"k", "e", "d", "v"⟩ ⟨200, none, "", ["l1", "l2"], "E"⟩
      "u" "m" [] [("stream", Val.bool true)] [("stream", Val.bool true)] rfl (by decide)
  exact ⟨h.1, h.2.1 rfl⟩

/-- C3 counterexample: with either configuration still holding its
placeholder sentinel values, a call reaches the remote transport in both
pipelines (for DeepSeekR1 the result depends on the transport outcome), and
no ConfigurationError-tagged result exists: the DeepSeekR1 pipe returns a
transport failure as the generic serialized error envelope, and the o1-mini
pipe raises UnboundLocalError on a connection failure. -/
theorem placeholder_config_counterexample :
    (deepseekPipe placeholderDSConfig
        (dsTransportConst (.error "connection refused") (.error "connection refused"))
        "u" "m" [] []).networkAttempted = true
  ∧ (deepseekPipe placeholderDSConfig
        (dsTransportConst (.error "connection refused") (.error "connection refused"))
        "u" "m" [] []).result = .text (errorJson "connection refused")
  ∧ (deepseekPipe placeholderDSConfig
        (dsTransportConst (.error "boom") (.ok ⟨[⟨⟨"ok"⟩⟩]⟩))
        "u" "m" [] []).result = .text "ok"
  ∧ (o1pipe placeholderO1Config (fun _ _ _ => .raised "connection refused")
        "q" "o1" [] [("temperature", Val.num 1)]).networkAttempted = true
  ∧ (o1pipe placeholderO1Config (fun _ _ _ => .raised "connection refused")
        "q" "o1" [] [("temperature", Val.num 1)]).result
      = .error PyExn.unboundLocalError :=
  ⟨rfl, rfl, rfl, rfl, rfl⟩

/-- C3 amended: neither pipeline performs placeholder detection; with the
placeholder sentinels still configured, a call still invokes the remote
transport in both pipelines, and no branch produces a
ConfigurationError-tagged result: a DeepSeekR1 transport failure is
returned as the generic serialized error envelope, while the o1-mini pipe
raises UnboundLocalError on a connection failure and returns the plain
"Error: Request failed: ..." string on an HTTP-status failure. -/
theorem placeholder_config_amended (e u m : String) (msgs : List Msg) (body : Body)
    (r : HttpResponse) (h4 : 400 ≤ r.status) (body2 b1 : Body)
    (hu : remapUser body2 = .ok b1) :
    (deepseekPipe placeholderDSConfig (dsTransportConst (.error e) (.error e))
        u m msgs body).networkAttempted = true
  ∧ (deepseekPipe placeholderDSConfig (dsTransportConst (.error e) (.error e))
        u m msgs body).result = .text (errorJson e)
  ∧ (o1pipe placeholderO1Config (fun _ _ _ => .raised e) u m msgs body2).networkAttempted
      = true
  ∧ (o1pipe placeholderO1Config (fun _ _ _ => .raised e) u m msgs body2).result
      = .error PyExn.unboundLocalError
  ∧ (o1pipe placeholderO1Config (fun _ _ _ => .resp r) u m msgs body2).networkAttempted
      = true
  ∧ (o1pipe placeholderO1Config (fun _ _ _ => .resp r) u m msgs body2).result
      = .ok (.text (o1HandlerString r.exnText r)) := by
  refine ⟨?_, ?_, ?_, ?_, ?_, ?_⟩
  · cases h : truthyGet (ds_body_after_pops body) "stream" <;>
      simp [deepseekPipe, h, dsTransportConst, stream_response, get_completion]
  · cases h : truthyGet (ds_body_after_pops body) "stream" <;>
      simp [deepseekPipe, h, dsTransportConst, stream_response, get_completion]
  · simp [o1pipe, hu]
  · simp [o1pipe, hu]
  · simp [o1pipe, hu, h4]
  · simp [o1pipe, hu, h4]

/-- C3 amended witness: placeholder configurations, a connection failure
and a 500 response. -/
theorem placeholder_config_amended_witness :
    (deepseekPipe placeholderDSConfig
        (dsTransportConst (.error "timeout") (.error "timeout"))
        "u" "m" [] []).result = .text (errorJson "timeout")
  ∧ (o1pipe placeholderO1Config (fun _ _ _ => .raised "timeout")
        "u" "m" [] []).result = .error PyExn.unboundLocalError
  ∧ (o1pipe placeholderO1Config
        (fun _ _ _ => .resp ⟨500, none, "server error", [], "HTTPError"⟩)
        "u" "m" [] []).result
      = .ok (.text (o1HandlerString "HTTPError"
          ⟨500, none, "server error", [], "HTTPError"⟩)) := by
  have h := placeholder_config_amended "timeout" "u" "m" [] []
      ⟨500, none, "server error", [], "HTTPError"⟩ (by decide) [] [] rfl
  exact ⟨h.2.1, h.2.2.2.1, h.2.2.2.2.2⟩

/-- C7 counterexample: in blocking mode the o1-mini pipe returns the whole
parsed JSON response value, not the first completion choice content as a
string. -/
theorem blocking_first_choice_counterexample :
    (o1pipe ⟨"k", "e", "d", "v"⟩
        (fun _ _ _ => .resp ⟨200,
          some (.obj [("choices", .arr [.obj [("message",
            .obj [("content", .str "hi")])]])]), "", [], "E"⟩)
        "u" "m" [] []).result
      = .ok (.jsonVal (.obj [("choices", .arr [.obj [("message",
          .obj [("content", .str "hi")])]])]))
  ∧ (o1pipe ⟨"k", "e", "d", "v"⟩
        (fun _ _ _ => .resp ⟨200,
          some (.obj [("choices", .arr [.obj [("message",
            .obj [("content", .str "hi")])]])]), "", [], "E"⟩)
        "u" "m" [] []).result ≠ .ok (.text "hi") := by
  refine ⟨rfl, ?_⟩
  intro h
  rw [show (o1pipe ⟨"k", "e", "d", "v"⟩
        (fun _ _ _ => .resp ⟨200,
          some (.obj [("choices", .arr [.obj [("message",
            .obj [("content", .str "hi")])]])]), "", [], "E"⟩)
        "u" "m" [] []).result
      = .ok (.jsonVal (.obj [("choices", .arr [.obj [("message",
          .obj [("content", .str "hi")])]])])) from rfl] at h
  injection h with h2
  exact PipeValue.noConfusion h2

/-- C7 amended: in the DeepSeekR1 pipeline a blocking call returns the
first completion choice content, and the empty string — not an error — when
the provider returns zero choices; the o1-mini pipeline instead returns the
entire parsed JSON response body in blocking mode. -/
theorem blocking_first_choice_amended (cfg : DSConfig) (u m : String)
    (msgs : List Msg) (body : Body) (s : Except String (List Chunk))
    (comp : Completion)
    (hstream : truthyGet (ds_body_after_pops body) "stream" = false)
    (cfg' : O1Config) (r : HttpResponse) (u' m' : String) (msgs' : List Msg)
    (body' b1 : Body) (hu : remapUser body' = .ok b1)
    (hst : r.status < 400)
    (hs : truthyGet (o1Filter b1) "stream" = false) (j : Val)
    (hj : r.jsonBody = some j) :
    (deepseekPipe cfg (dsTransportConst s (.ok comp)) u m msgs body).result
      = .text (firstChoiceContent comp)
  ∧ (comp.choices = [] →
      (deepseekPipe cfg (dsTransportConst s (.ok comp)) u m msgs body).result
        = .text "")
  ∧ (o1pipe cfg' (fun _ _ _ => .resp r) u' m' msgs' body').result
      = .ok (.jsonVal j) := by
  have h4 : ¬ (400 ≤ r.status) := by omega
  refine ⟨?_, ?_, ?_⟩
  · obtain ⟨chs⟩ := comp
    cases chs <;>
      simp [deepseekPipe, hstream, dsTransportConst, get_completion, firstChoiceContent]
  · intro hc
    simp [deepseekPipe, hstream, dsTransportConst, get_completion, hc]
  · simp [o1pipe, hu, h4, hs, hj]

/-- C7 amended witness: a blocking DeepSeekR1 call with one choice returns
its content, with zero choices the empty string, and a blocking o1-mini
call returns the parsed JSON body. -/
theorem blocking_first_choice_amended_witness :
    (deepseekPipe placeholderDSConfig
        (dsTransportConst (.error "x") (.ok ⟨[⟨⟨"seven"⟩⟩]⟩)) "u" "m" [] []).result
      = .text (firstChoiceContent ⟨[⟨⟨"seven"⟩⟩]⟩)
  ∧ (deepseekPipe placeholderDSConfig
        (dsTransportConst (.error "x") (.ok ⟨[]⟩)) "u" "m" [] []).result = .text ""
  ∧ (o1pipe ⟨"k", "e", "d", "v"⟩
        (fun _ _ _ => .resp ⟨200, some (.obj [("id", .str "cmpl2")]), "", [], "E"⟩)
        "u" "m" [] []).result = .ok (.jsonVal (.obj [("id", .str "cmpl2")])) := by
  have h1 := blocking_first_choice_amended placeholderDSConfig "u" "m" [] []
      (.error "x") ⟨[⟨⟨"seven"⟩⟩]⟩ rfl ⟨"k", "e", "d", "v"⟩
      ⟨200, some (.obj [("id", .str "cmpl2")]), "", [], "E"⟩ "u" "m" [] [] []
      rfl (by decide) rfl (.obj [("id", .str "cmpl2")]) rfl
  have h2 := blocking_first_choice_amended placeholderDSConfig "u" "m" [] []
      (.error "x") ⟨[]⟩ rfl ⟨"k", "e", "d", "v"⟩
      ⟨200, some (.obj [("id", .str "cmpl2")]), "", [], "E"⟩ "u" "m" [] [] []
      rfl (by decide) rfl (.obj [("id", .str "cmpl2")]) rfl
  exact ⟨h1.1, h2.2.1 rfl, h1.2.2⟩

/-- C8 counterexample: an input with exactly one system-role message whose
content is the empty string: the truthiness guard drops it, so it is not
moved to the front of the outgoing sequence — it is absent from it. -/
theorem single_system_hoist_counterexample :
    prepareMessages [⟨"system", ""⟩, ⟨"user", "hi"⟩] = [ChatMsg.user "hi"]
  ∧ ChatMsg.system "" ∉ prepareMessages [⟨"system", ""⟩, ⟨"user", "hi"⟩] :=
  ⟨by decide, by decide⟩

/-- C8 amended: for an input with exactly one system-role message whose
content is non-empty, the prepared outgoing sequence starts with that
system message and continues with the remaining messages in their original
relative order. -/
theorem single_system_hoist_amended (l1 l2 : List Msg) (S : Msg)
    (hS : S.role = "system") (hc : S.content ≠ "")
    (h1 : ∀ m ∈ l1, m.role ≠ "system") (h2 : ∀ m ∈ l2, m.role ≠ "system") :
    prepareMessages (l1 ++ S :: l2)
      = ChatMsg.system S.content :: (l1 ++ l2).map toTyped := by
  unfold prepareMessages
  rw [pop_system_message_spec]
  have hlast : lastSystemContent (l1 ++ S :: l2) = S.content := by
    unfold lastSystemContent
    rw [List.foldl_append, List.foldl_cons, if_pos hS]
    exact lastSys_foldl_of_no_system h2 _
  have hns : nonSystem (l1 ++ S :: l2) = l1 ++ l2 := by
    rw [show nonSystem (l1 ++ S :: l2)
          = nonSystem l1 ++ nonSystem (S :: l2) from List.filter_append ..]
    rw [show nonSystem (S :: l2) = nonSystem l2 by simp [nonSystem, List.filter_cons, hS]]
    rw [nonSystem_eq_self h1, nonSystem_eq_self h2]
  simp only [hlast, hns]
  rw [if_pos hc]
  rfl

/-- C8 amended witness: a user message, one non-empty system message, and an
assistant message. -/
theorem single_system_hoist_amended_witness :
    prepareMessages ([Msg.mk "user" "a"] ++ Msg.mk "system" "sys" :: [Msg.mk "assistant" "b"])
      = ChatMsg.system "sys"
          :: ([Msg.mk "user" "a"] ++ [Msg.mk "assistant" "b"]).map toTyped :=
  single_system_hoist_amended [Msg.mk "user" "a"] [Msg.mk "assistant" "b"]
    (Msg.mk "system" "sys") rfl (by decide) (by decide) (by decide)

/-- C9 counterexample: in the DeepSeekR1 pipeline the user key is stripped
from the body before filtering, so the filtered parameter mapping has no
user entry at all — it does not equal the string "u1". -/
theorem filtered_user_counterexample :
    getKey (ds_filtered_body
      [("chat_id", .str "c"), ("title", .str "t"),
       ("user", .obj [("id", .str "u1")]), ("temperature", .num 1)]) "user" = none
  ∧ ds_filtered_body
      [("chat_id", .str "c"), ("title", .str "t"),
       ("user", .obj [("id", .str "u1")]), ("temperature", .num 1)]
      = [("temperature", Val.num 1)] :=
  ⟨rfl, rfl⟩

/-- C9 amended: for a body containing chat_id, title and an object-valued
user whose id field is "u1": in the o1-mini pipeline the user value is
replaced by its id field (by the str() rendering of the whole object when id
is absent) and the filtered parameters contain neither chat_id nor title
while their user entry equals "u1"; in the DeepSeekR1 pipeline user,
chat_id and title are all stripped, so its filtered parameters contain none
of the three. -/
theorem filtered_user_amended (body : Body) (kvs : List (String × Val))
    (hu : getKey body "user" = some (.obj kvs))
    (hid : getKey kvs "id" = some (.str "u1")) :
    remapUser body = .ok (setKey body "user" (.str "u1"))
  ∧ getKey (o1Filter (setKey body "user" (.str "u1"))) "user" = some (.str "u1")
  ∧ getKey (o1Filter (setKey body "user" (.str "u1"))) "chat_id" = none
  ∧ getKey (o1Filter (setKey body "user" (.str "u1"))) "title" = none
  ∧ getKey (ds_filtered_body body) "user" = none
  ∧ getKey (ds_filtered_body body) "chat_id" = none
  ∧ getKey (ds_filtered_body body) "title" = none := by
  refine ⟨by simp [remapUser, hu, hid], ?_, ?_, ?_, ?_, ?_, ?_⟩
  · rw [o1Filter, getKey_filter_keys, if_pos (by decide)]
    exact getKey_setKey_self ..
  · rw [o1Filter, getKey_filter_keys, if_neg (by decide)]
  · rw [o1Filter, getKey_filter_keys, if_neg (by decide)]
  · rw [ds_filtered_body, getKey_filter_keys, if_neg (by decide)]
  · rw [ds_filtered_body, getKey_filter_keys, if_neg (by decide)]
  · rw [ds_filtered_body, getKey_filter_keys, if_neg (by decide)]

/-- C9 amended witness: the Scenario D body. -/
theorem filtered_user_amended_witness :
    getKey (o1Filter (setKey
      [("chat_id", Val.str "c"), ("title", Val.str "t"),
       ("user", Val.obj [("id", Val.str "u1")]), ("temperature", Val.num 1)]
      "user" (.str "u1"))) "user" = some (Val.str "u1")
  ∧ getKey (o1Filter (setKey
      [("chat_id", Val.str "c"), ("title", Val.str "t"),
       ("user", Val.obj [("id", Val.str "u1")]), ("temperature", Val.num 1)]
      "user" (.str "u1"))) "chat_id" = none
  ∧ getKey (ds_filtered_body
      [("chat_id", Val.str "c"), ("title", Val.str "t"),
       ("user", Val.obj [("id", Val.str "u1")]), ("temperature", Val.num 1)]) "title"
      = none := by
  have h := filtered_user_amended
      [("chat_id", Val.str "c"), ("title", Val.str "t"),
       ("user", Val.obj [("id", Val.str "u1")]), ("temperature", Val.num 1)]
      [("id", Val.str "u1")] rfl rfl
  exact ⟨h.2.1, h.2.2.1, h.2.2.2.2.2.2⟩

/-- C10: pipe mutates the caller-supplied body mapping: the DeepSeekR1 pipe
removes user, chat_id and title from it — so when chat_id was present the
final body is no longer the mapping that was passed in — and the o1-mini
pipe overwrites the user entry with its id field when the user value is an
object. -/
theorem body_mutation (cfg : DSConfig) (tr : DSTransport) (u m : String)
    (msgs : List Msg) (body : Body) (v : Val)
    (hv : getKey body "chat_id" = some v)
    (cfg' : O1Config) (tr' : O1Transport) (u' m' : String) (msgs' : List Msg)
    (body' : Body) (kvs : List (String × Val)) (idv : Val)
    (hu : getKey body' "user" = some (.obj kvs))
    (hid : getKey kvs "id" = some idv) :
    getKey (deepseekPipe cfg tr u m msgs body).finalBody "user" = none
  ∧ getKey (deepseekPipe cfg tr u m msgs body).finalBody "chat_id" = none
  ∧ getKey (deepseekPipe cfg tr u m msgs body).finalBody "title" = none
  ∧ (deepseekPipe cfg tr u m msgs body).finalBody ≠ body
  ∧ (o1pipe cfg' tr' u' m' msgs' body').finalBody = setKey body' "user" idv
  ∧ getKey (o1pipe cfg' tr' u' m' msgs' body').finalBody "user" = some idv := by
  have hfb : (deepseekPipe cfg tr u m msgs body).finalBody = ds_body_after_pops body := by
    cases h : truthyGet (ds_body_after_pops body) "stream" <;> simp [deepseekPipe, h]
  have huser : getKey (ds_body_after_pops body) "user" = none := by
    rw [ds_body_after_pops, getKey_popKey_ne _ _ _ (by decide),
      getKey_popKey_ne _ _ _ (by decide)]
    exact getKey_popKey_self ..
  have hcid : getKey (ds_body_after_pops body) "chat_id" = none := by
    rw [ds_body_after_pops, getKey_popKey_ne _ _ _ (by decide)]
    exact getKey_popKey_self ..
  have htitle : getKey (ds_body_after_pops body) "title" = none :=
    getKey_popKey_self ..
  have hrm : remapUser body' = .ok (setKey body' "user" idv) := by
    simp [remapUser, hu, hid]
  have hfb' : (o1pipe cfg' tr' u' m' msgs' body').finalBody = setKey body' "user" idv := by
    cases htr : tr' (o1_url cfg') (o1Filter (setKey body' "user" idv))
        (truthyGet (o1Filter (setKey body' "user" idv)) "stream") with
    | raised e => simp [o1pipe, hrm, htr]
    | resp r =>
      by_cases h4 : 400 ≤ r.status
      · simp [o1pipe, hrm, htr, h4]
      · cases hst : truthyGet (o1Filter (setKey body' "user" idv)) "stream" with
        | true =>
          rw [hst] at htr
          simp [o1pipe, hrm, htr, h4, hst]
        | false =>
          rw [hst] at htr
          cases hjb : r.jsonBody <;> simp [o1pipe, hrm, htr, h4, hst, hjb]
  refine ⟨by rw [hfb]; exact huser, by rw [hfb]; exact hcid, by rw [hfb]; exact htitle,
    ?_, hfb', ?_⟩
  · intro he
    have hb : ds_body_after_pops body = body := hfb.symm.trans he
    rw [hb] at hcid
    rw [hv] at hcid
    exact Option.noConfusion hcid
  · rw [hfb']
    exact getKey_setKey_self ..

/-- C10 witness: a body holding chat_id for the DeepSeekR1 pipe and an
object-valued user for the o1-mini pipe. -/
theorem body_mutation_witness :
    (deepseekPipe placeholderDSConfig (dsTransportConst (.error "x") (.error "x"))
        "u" "m" [] [("chat_id", Val.str "c")]).finalBody ≠ [("chat_id", Val.str "c")]
  ∧ getKey (o1pipe ⟨"k", "e", "d", "v"⟩ (fun _ _ _ => .raised "x") "u" "m" []
        [("user", Val.obj [("id", Val.str "u1")])]).finalBody "user"
      = some (Val.str "u1") := by
  have h := body_mutation placeholderDSConfig (dsTransportConst (.error "x") (.error "x"))
      "u" "m" [] [("chat_id", Val.str "c")] (Val.str "c") rfl
      ⟨"k", "e", "d", "v"⟩ (fun _ _ _ => .raised "x") "u" "m" []
      [("user", Val.obj [("id", Val.str "u1")])] [("id", Val.str "u1")] (Val.str "u1")
      rfl rfl
  exact ⟨h.2.2.2.1, h.2.2.2.2.2⟩

end Pipelines
